import Mathlib

/-!
Shallow embedding of the SneakSync Marketplace backend (`src/main.py`, `src/schemas.py`).

Documents live in four collections (product, listing, offer, order).  MongoDB
ObjectIds are modelled as natural numbers; their 24-character lowercase hex
string form is `natToHex24`.  Prices and amounts (Python floats carrying money
values) are modelled as rationals.  Handlers are pure state transformers
`MPState → payload → MPState × Except ApiError response`; raising an
HTTPException or an escaping pydantic ValidationError returns the state as it
stands at the moment the exception is raised (so writes performed earlier in
the handler persist, exactly as in the source, where each database write is
immediate).
-/

namespace SneakSync

/-- Hex digit character for a value below 16, lowercase (mirrors `str(ObjectId)`). -/
def hexDigitChar (n : Nat) : Char :=
  if n < 10 then Char.ofNat (48 + n) else Char.ofNat (87 + n)

/-- First argument counts digits; produces the `k` low hex digits of `n`, most significant first. -/
def natToHexAux : Nat → Nat → List Char
  | 0, _ => []
  | k + 1, n => natToHexAux k (n / 16) ++ [hexDigitChar (n % 16)]

/-- Models `str(_id)` for a bson ObjectId: the 24-character lowercase hex rendering. -/
def natToHex24 (n : Nat) : String :=
  ⟨natToHexAux 24 n⟩

/-- Hex-digit test used by `bson.ObjectId.is_valid` on strings. -/
def isHexDigitCh (c : Char) : Bool :=
  (('0' ≤ c) && (c ≤ '9')) || (('a' ≤ c) && (c ≤ 'f')) || (('A' ≤ c) && (c ≤ 'F'))

/-- Models `ObjectId.is_valid(s)` for a string argument: exactly 24 hex characters. -/
def oidIsValid (s : String) : Bool :=
  (s.length == 24) && s.data.all isHexDigitCh

/-- Numeric value of a hex digit (case-insensitive). -/
def hexVal (c : Char) : Nat :=
  if ('0' ≤ c) && (c ≤ '9') then c.toNat - 48
  else if ('a' ≤ c) && (c ≤ 'f') then c.toNat - 87
  else c.toNat - 55

/-- Models `ObjectId(s)` on a valid 24-hex-character string: the number it denotes. -/
def parseOid (s : String) : Nat :=
  s.data.foldl (fun a c => 16 * a + hexVal c) 0

/-- Pydantic `Field(..., ge=0)` on a float value, evaluated on the rational model. -/
def ratGe0 (q : Rat) : Bool :=
  decide (0 ≤ q.num)

theorem ratGe0_iff (q : Rat) : ratGe0 q = true ↔ 0 ≤ q := by
  simp [ratGe0, Rat.num_nonneg]

/-- Pydantic 3-letter ISO currency constraint (`min_length=3, max_length=3`). -/
def currencyOk (c : String) : Bool :=
  c.length == 3

/-- The `Literal` enum of `Listing.listing_type` in `src/schemas.py`. -/
def listingTypeOk (t : String) : Bool :=
  (["fixed_price", "auction", "make_offer"] : List String).contains t

/-- The `Literal` enum of `Order.shipping_option` in `src/schemas.py`. -/
def shippingOk (s : String) : Bool :=
  (["standard", "express", "store_pickup", "dropship"] : List String).contains s

/-- The `Literal` enum of `Product.condition` in `src/schemas.py`. -/
def conditionOk (c : String) : Bool :=
  (["new", "used", "like_new", "open_box"] : List String).contains c

/-- Values appearing in the `payment_method` JSON mapping of a checkout request. -/
inductive PVal where
  | s (v : String)
  | i (v : Int)
  | b (v : Bool)
deriving DecidableEq

/-- Python `str()` of a payment-method value, as applied by `checkout`. -/
def PVal.toStr : PVal → String
  | .s v => v
  | .i v => toString v
  | .b v => if v then "True" else "False"

/-- Embeds `Dimensions` from `src/schemas.py`. -/
structure Dimensions where
  length : Int
  width : Int
  height : Int
deriving DecidableEq

/-- Embeds `SizeVariant` from `src/schemas.py`. -/
structure SizeVariant where
  size : String
  sku : String
  price : Rat
  currency : String
  inventory_quantity : Int
deriving DecidableEq

/-- Embeds the `Product` model of `src/schemas.py`; URL fields are carried as
plain strings (their format validation is not needed by any claim). -/
structure ProductDoc where
  title : String
  slug : String
  brand : String
  model : String
  release_year : Int
  condition : String
  size_variants : List SizeVariant
  images : List String
  gallery_video : Option String := none
  description : String
  materials : Option String := none
  colorway : Option String := none
  tags : List String := []
  authenticity_certificate : Bool := false
  seller_id : String
  shipping_weight_grams : Int
  dimensions_mm : Dimensions
deriving DecidableEq

/-- Pydantic validation of a `Product` payload (the constraints of `src/schemas.py`
that the claims can exercise: enum membership and numeric lower bounds). -/
def ProductDoc.valid (p : ProductDoc) : Bool :=
  conditionOk p.condition &&
  p.size_variants.all (fun v => ratGe0 v.price && currencyOk v.currency && decide (0 ≤ v.inventory_quantity)) &&
  decide (0 ≤ p.shipping_weight_grams) &&
  decide (0 ≤ p.dimensions_mm.length) && decide (0 ≤ p.dimensions_mm.width) &&
  decide (0 ≤ p.dimensions_mm.height)

/-- A stored listing document.  `currency` and `status` are `Option` because a
document in the store need not carry them (`listing.get(...)` in `checkout`);
the numeric `price` field is required, as `checkout` reads `listing["price"]`
and coerces it with `float(...)`. -/
structure ListingDoc where
  seller_id : String
  product_id : String
  price : Rat
  listing_type : String
  currency : Option String := some "USD"
  status : Option String := some "active"
deriving DecidableEq

/-- A stored offer document, as produced by the `Offer` model of `src/schemas.py`. -/
structure OfferDoc where
  buyer_id : String
  listing_id : String
  offer_price : Rat
  currency : String
  status : String
deriving DecidableEq

/-- A stored order document, as produced by the `Order` model of `src/schemas.py`. -/
structure OrderDoc where
  buyer_id : String
  listing_id : String
  amount : Rat
  currency : String
  payment_method : List (String × String)
  shipping_option : String
  status : String
  escrow_status : String
deriving DecidableEq

/-- The four collections of the document store plus the generator for fresh
ObjectIds.  Collections are sequences of (ObjectId, document) pairs in natural
(insertion) order, matching MongoDB `find_one` / `update_one` first-match
semantics on an unindexed filter. -/
structure MPState where
  products : List (Nat × ProductDoc)
  listings : List (Nat × ListingDoc)
  offers : List (Nat × OfferDoc)
  orders : List (Nat × OrderDoc)
  nextId : Nat
deriving DecidableEq

def emptyState : MPState :=
  { products := [], listings := [], offers := [], orders := [], nextId := 0 }

/-- Modelled from the spec: `create_document` lives in the repository's
`database` module, which is not among the provided sources; §4.4 of the spec
fixes its contract as `insert(collection, document) → generatedId`, pure CRUD
with no business logic.  We model it per collection: the document is appended
under a freshly generated ObjectId and that identifier is returned in string
form. -/
def insertProduct (st : MPState) (d : ProductDoc) : MPState × String :=
  ({ st with products := st.products ++ [(st.nextId, d)], nextId := st.nextId + 1 },
    natToHex24 st.nextId)

/-- Modelled from the spec: see `insertProduct`. -/
def insertListing (st : MPState) (d : ListingDoc) : MPState × String :=
  ({ st with listings := st.listings ++ [(st.nextId, d)], nextId := st.nextId + 1 },
    natToHex24 st.nextId)

/-- Modelled from the spec: see `insertProduct`. -/
def insertOffer (st : MPState) (d : OfferDoc) : MPState × String :=
  ({ st with offers := st.offers ++ [(st.nextId, d)], nextId := st.nextId + 1 },
    natToHex24 st.nextId)

/-- Modelled from the spec: see `insertProduct`. -/
def insertOrder (st : MPState) (d : OrderDoc) : MPState × String :=
  ({ st with orders := st.orders ++ [(st.nextId, d)], nextId := st.nextId + 1 },
    natToHex24 st.nextId)

/-- Models `db["listing"].find_one({"_id": oid})`: first stored listing with that id. -/
def findListing (st : MPState) (n : Nat) : Option (Nat × ListingDoc) :=
  st.listings.find? (fun q => q.1 == n)

/-- Models `db["listing"].update_one({"_id": i}, {"$set": {"status": "sold"}})`:
the first listing whose id matches gets its status set to "sold". -/
def updateFirstListing : List (Nat × ListingDoc) → Nat → List (Nat × ListingDoc)
  | [], _ => []
  | q :: qs, i =>
    if q.1 == i then (q.1, { q.2 with status := some "sold" }) :: qs
    else q :: updateFirstListing qs i

/-- Errors a handler can surface: `http code detail` models a raised
`HTTPException`; `validation` models a pydantic `ValidationError` escaping the
handler body (which FastAPI surfaces as an HTTP 500 server error). -/
inductive ApiError where
  | http (code : Nat) (detail : String)
  | validation
deriving DecidableEq

/-- Python truthiness test `listing.get("status") and listing["status"] != "active"`
from `checkout` (src/main.py line 185): an absent status or an empty-string
status is falsy, so only a non-empty status different from "active" blocks checkout. -/
def listingUnavailable : Option String → Bool
  | none => false
  | some s => !(s == "") && !(s == "active")

/-- Pydantic construction `Order(...)` from `checkout`: validates the `Field`
constraints of the `Order` model; `none` models a raised ValidationError. -/
def mkOrder (buyer listing : String) (amount : Rat) (currency : String)
    (pm : List (String × String)) (ship : String) : Option OrderDoc :=
  if ratGe0 amount && currencyOk currency && shippingOk ship then
    some { buyer_id := buyer, listing_id := listing, amount := amount,
           currency := currency, payment_method := pm, shipping_option := ship,
           status := "created", escrow_status := "held" }
  else none

/-- Pydantic construction `Listing(...)` from `create_listing`: validates price
and listing_type; currency and status take their schema defaults. -/
def mkListing (seller productId : String) (price : Rat) (ty : String) : Option ListingDoc :=
  if ratGe0 price && listingTypeOk ty then
    some { seller_id := seller, product_id := productId, price := price,
           listing_type := ty, currency := some "USD", status := some "active" }
  else none

/-- Pydantic construction `Offer(...)` from `create_offer`: validates offer_price;
currency and status take their schema defaults "USD" and "pending". -/
def mkOffer (buyer listingId : String) (price : Rat) : Option OfferDoc :=
  if ratGe0 price then
    some { buyer_id := buyer, listing_id := listingId, offer_price := price,
           currency := "USD", status := "pending" }
  else none

/-- Request body of `POST /listings` (`ListingCreate` in src/main.py); note that
its `listing_type` is a plain string, so the enum is not checked at request time. -/
structure ListingCreate where
  seller_id : String
  product : ProductDoc
  price : Rat
  listing_type : String
deriving DecidableEq

/-- A listing-creation payload that satisfies every schema constraint in play:
the request-model constraints on the embedded product together with the
`Listing` model constraints checked inside the handler. -/
def ListingCreateValid (p : ListingCreate) : Bool :=
  p.product.valid && ratGe0 p.price && listingTypeOk p.listing_type

/-- Request body of `POST /offers` (`OfferCreate` in src/main.py). -/
structure OfferCreate where
  buyer_id : String
  listing_id : String
  offer_price : Rat
deriving DecidableEq

/-- Request body of `POST /checkout` (`CheckoutRequest` in src/main.py); its
`shipping_option` is a plain string — the enum is only checked by the `Order`
model inside the handler. -/
structure CheckoutRequest where
  cart_id : Option String := none
  listing_id : String
  buyer_id : String
  payment_method : List (String × PVal)
  shipping_option : String
deriving DecidableEq

structure ListingResp where
  status : String
  listing_id : String
  product_id : String
deriving DecidableEq

structure OfferResp where
  status : String
  offer_id : String
deriving DecidableEq

structure CheckoutResp where
  status : String
  order_id : String
deriving DecidableEq

/-- Embeds `create_listing` (src/main.py lines 114-138).  The slug lookup runs
only when the dumped product's slug is truthy (non-empty); on a hit the
existing product's id is reused (the dead `"._id" in existing` arm of line 126
never fires, since no stored document carries a literal "._id" key), otherwise
the product is inserted.  The `Listing(...)` construction then validates; a
ValidationError escapes after the product write. -/
def create_listing (st : MPState) (p : ListingCreate) : MPState × Except ApiError ListingResp :=
  let product_data := p.product
  let existing : Option (Nat × ProductDoc) :=
    if product_data.slug != "" then
      st.products.find? (fun q => q.2.slug == product_data.slug)
    else none
  let r1 : MPState × String :=
    match existing with
    | some (i, _) => (st, natToHex24 i)
    | none => insertProduct st product_data
  match mkListing p.seller_id r1.2 p.price p.listing_type with
  | none => (r1.1, .error .validation)
  | some ld =>
    let r2 := insertListing r1.1 ld
    (r2.1, .ok { status := "listing_created", listing_id := r2.2, product_id := r1.2 })

/-- Embeds `create_offer` (src/main.py lines 148-164): 404 when the listing id
is malformed or unresolved; otherwise persists an `Offer` carrying the payload
fields and the schema defaults. -/
def create_offer (st : MPState) (p : OfferCreate) : MPState × Except ApiError OfferResp :=
  match (if oidIsValid p.listing_id then findListing st (parseOid p.listing_id) else none) with
  | none => (st, .error (.http 404 "Listing not found"))
  | some _ =>
    match mkOffer p.buyer_id p.listing_id p.offer_price with
    | none => (st, .error .validation)
    | some off =>
      let r := insertOffer st off
      (r.1, .ok { status := "offer_created", offer_id := r.2 })

/-- Embeds `checkout` (src/main.py lines 176-201): resolve the listing (404 on
malformed/unresolved id), reject unavailable listings (400), snapshot price and
currency into an `Order` (pydantic-validated), persist it, then mark the
listing sold. -/
def checkout (st : MPState) (p : CheckoutRequest) : MPState × Except ApiError CheckoutResp :=
  match (if oidIsValid p.listing_id then findListing st (parseOid p.listing_id) else none) with
  | none => (st, .error (.http 404 "Listing not found"))
  | some (i, l) =>
    if listingUnavailable l.status then
      (st, .error (.http 400 "Listing not available"))
    else
      match mkOrder p.buyer_id (natToHex24 i) l.price (l.currency.getD "USD")
          (p.payment_method.map (fun kv => (kv.1, kv.2.toStr))) p.shipping_option with
      | none => (st, .error .validation)
      | some ord =>
        let r := insertOrder st ord
        let st2 := { r.1 with listings := updateFirstListing r.1.listings i }
        (st2, .ok { status := "order_confirmation", order_id := r.2 })

/-- Characters with a special meaning in a PCRE pattern; any other character
is an ordinary literal. -/
def regexSpecial (c : Char) : Bool :=
  (['.', '^', '$', '*', '+', '?', '(', ')', '[', ']', '\x7b', '\x7d', '|', '\\'] : List Char).contains c

/-- Elements of the modelled regex fragment: a literal character or the `.` wildcard. -/
inductive RElem where
  | lit (c : Char)
  | dot
deriving DecidableEq

/-- Interprets the characters of the interpolated user string as pattern
elements: `.` becomes the wildcard, ordinary characters become literals, and
any other metacharacter falls outside the modelled fragment (`none`). -/
def patElems : List Char → Option (List RElem)
  | [] => some []
  | c :: cs =>
    if c = '.' then (patElems cs).map (fun es => RElem.dot :: es)
    else if regexSpecial c then none
    else (patElems cs).map (fun es => RElem.lit c :: es)

/-- One pattern element against one subject character, case-insensitively
(the `$options: "i"` flag): PCRE `.` matches anything but a newline. -/
def elemMatch : RElem → Char → Bool
  | .lit a, c => a.toLower == c.toLower
  | .dot, c => !(c == '\n')

/-- The inner elements of an anchored pattern against the whole subject: same
length and element-wise match. -/
def anchoredMatch : List RElem → List Char → Bool
  | [], [] => true
  | e :: es, c :: cs => elemMatch e c && anchoredMatch es cs
  | _, _ => false

/-- A fully anchored pattern `^ ... $` against a subject string.  PCRE's `$`
(without DOLLAR_ENDONLY, as MongoDB's `$regex` uses it) asserts the end of the
subject or the position immediately before a newline that ends the subject, so
the pattern matches the whole subject or the subject minus one trailing
newline. -/
def dollarAnchoredMatch (es : List RElem) (cs : List Char) : Bool :=
  anchoredMatch es cs ||
  ((cs.getLast? == some '\n') && anchoredMatch es cs.dropLast)

/-- Case-insensitive string equality: the relation the spec intends the brand
filter to implement. -/
def ciEq (a b : String) : Bool :=
  a.data.map Char.toLower == b.data.map Char.toLower

/-- Case-insensitive equality up to one trailing newline on the subject side:
what the anchored case-insensitive PCRE pattern actually implements for a
metacharacter-free parameter `a` against a stored field value `b`. -/
def ciEqChomp (a b : String) : Bool :=
  ciEq a b ||
  ((b.data.getLast? == some '\n') &&
    (a.data.map Char.toLower == b.data.dropLast.map Char.toLower))

/-- Embeds the brand filtering of `list_products` (src/main.py lines 82-83):
the user-supplied brand string is spliced into the pattern `^{brand}$` with the
case-insensitive option and matched by the store against each product's brand
field.  An empty brand string is falsy in Python, so the filter clause is not
added at all and every product matches.  The result is the sequence of matching
products (from which the source then orders by created_at and paginates — no
claim touches those steps); `none` signals a pattern outside the modelled
regex fragment. -/
def listProductsByBrand (st : MPState) (brand : String) : Option (List (Nat × ProductDoc)) :=
  if brand = "" then some st.products
  else
    (patElems brand.data).map
      (fun es => st.products.filter (fun q => dollarAnchoredMatch es q.2.brand.data))

/-- A document value as stored in MongoDB, for the handful of shapes
`serialize_doc` inspects: strings, ObjectIds, numbers, booleans, null, arrays
and sub-documents. -/
inductive BVal where
  | str (s : String)
  | oid (n : Nat)
  | num (q : Rat)
  | bool (b : Bool)
  | null
  | arr (xs : List BVal)
  | dict (fs : List (String × BVal))

/-- Python `str()` of a document value, as applied to the popped `_id`.  Only
the ObjectId and string renderings matter to any claim; the renderings of the
remaining shapes are simplified placeholders. -/
def pyStrB : BVal → String
  | .str s => s
  | .oid n => natToHex24 n
  | .num q => toString q.num
  | .bool b => if b then "True" else "False"
  | .null => "None"
  | .arr _ => ""
  | .dict _ => ""

/-- Stringify a value if it is an ObjectId, leave it alone otherwise (the
element-wise conversion inside top-level lists and sub-documents). -/
def stringifyElem : BVal → BVal
  | .oid n => .str (natToHex24 n)
  | v => v

/-- The per-field conversion of the `serialize_doc` loop (src/main.py lines
44-52): a top-level ObjectId is stringified; a top-level list has its ObjectId
elements stringified; a top-level sub-document has its immediate ObjectId
values stringified; everything else is untouched. -/
def serializeField (kv : String × BVal) : String × BVal :=
  match kv.2 with
  | .oid n => (kv.1, .str (natToHex24 n))
  | .arr xs => (kv.1, .arr (xs.map stringifyElem))
  | .dict gs => (kv.1, .dict (gs.map (fun g => (g.1, stringifyElem g.2))))
  | v => (kv.1, v)

/-- Python `doc["id"] = v`: replace the value in place when the key exists,
append the pair otherwise (insertion-ordered dict semantics). -/
def dictSet (fs : List (String × BVal)) (k : String) (v : BVal) : List (String × BVal) :=
  if fs.any (fun kv => kv.1 == k) then
    fs.map (fun kv => if kv.1 == k then (k, v) else kv)
  else fs ++ [(k, v)]

/-- Embeds `serialize_doc` (src/main.py lines 36-53).  An empty document is
returned unchanged; otherwise `_id` is popped and re-added under `id` in string
form (unless it was None), and the conversion loop then runs over every
remaining field, one level deep. -/
def serialize_doc (fs : List (String × BVal)) : List (String × BVal) :=
  if fs.isEmpty then fs
  else
    let idv : Option BVal := (fs.find? (fun kv => kv.1 == "_id")).map (fun kv => kv.2)
    let rest := fs.eraseP (fun kv => kv.1 == "_id")
    let rest2 :=
      match idv with
      | none => rest
      | some BVal.null => rest
      | some v => dictSet rest "id" (.str (pyStrB v))
    rest2.map serializeField

/-- A value is a raw ObjectId. -/
def BVal.isOid : BVal → Bool
  | .oid _ => true
  | _ => false

mutual

/-- A raw ObjectId occurs somewhere inside a value, at any depth. -/
def BVal.hasOid : BVal → Bool
  | .str _ => false
  | .oid _ => true
  | .num _ => false
  | .bool _ => false
  | .null => false
  | .arr xs => hasOidList xs
  | .dict fs => hasOidFields fs

/-- A raw ObjectId occurs inside some element of the list. -/
def hasOidList : List BVal → Bool
  | [] => false
  | x :: xs => x.hasOid || hasOidList xs

/-- A raw ObjectId occurs inside some field value of the document. -/
def hasOidFields : List (String × BVal) → Bool
  | [] => false
  | f :: fs => f.2.hasOid || hasOidFields fs

end

/-- A field is free of raw ObjectIds down to depth one: its value is not an
ObjectId, no element of a list value is an ObjectId, and no immediate value of
a sub-document value is an ObjectId. -/
def fieldShallowOk (kv : String × BVal) : Bool :=
  match kv.2 with
  | .oid _ => false
  | .arr xs => xs.all (fun x => !(BVal.isOid x))
  | .dict gs => gs.all (fun g => !(BVal.isOid g.2))
  | _ => true

/-- Every field of the document is free of raw ObjectIds down to depth one. -/
def shallowClean (fs : List (String × BVal)) : Bool :=
  fs.all fieldShallowOk

/-! ### Concrete fixtures used by witnesses and counterexamples -/

def sampleDims : Dimensions := { length := 10, width := 10, height := 10 }

def sampleProduct : ProductDoc :=
  { title := "Air Max 1", slug := "air-max-1", brand := "Nike", model := "Air Max",
    release_year := 2020, condition := "new", size_variants := [], images := [],
    description := "classic", seller_id := "s1", shipping_weight_grams := 500,
    dimensions_mm := sampleDims }

def sampleListing : ListingDoc :=
  { seller_id := "s1", product_id := natToHex24 0, price := 120,
    listing_type := "fixed_price", currency := some "USD", status := some "active" }

def oneListingState : MPState :=
  { products := [], listings := [(1, sampleListing)], offers := [], orders := [], nextId := 2 }

/-- The string form of ObjectId 1. -/
def lid1 : String := "000000000000000000000001"

def checkoutReq1 : CheckoutRequest :=
  { listing_id := lid1, buyer_id := "b1", payment_method := [("card", .s "tok_1")],
    shipping_option := "standard" }

/-! ### Helper lemmas shared between claims -/

theorem find_eq_key {ls : List (Nat × ListingDoc)} {n i : Nat} {l : ListingDoc}
    (h : ls.find? (fun q => q.1 == n) = some (i, l)) : i = n := by
  have hm := List.find?_some h
  simpa using hm

/-- After `update_one` sets the first listing matching id `i` to sold, the
first listing matching id `n` (the id under which it was found) is the same
document with status "sold". -/
theorem find_updateFirst {ls : List (Nat × ListingDoc)} {n i : Nat} {l : ListingDoc}
    (h : ls.find? (fun q => q.1 == n) = some (i, l)) :
    (updateFirstListing ls i).find? (fun q => q.1 == n) =
      some (i, { l with status := some "sold" }) := by
  have hin : i = n := find_eq_key h
  subst hin
  induction ls with
  | nil => simp [List.find?] at h
  | cons q qs ih =>
    rcases q with ⟨j, d⟩
    by_cases hj : j = i
    · subst hj
      rw [List.find?_cons_of_pos _ (by simp)] at h
      have hd : d = l := by
        have := Option.some.inj h
        exact congrArg Prod.snd this
      subst hd
      show (updateFirstListing ((j, d) :: qs) j).find? (fun q => q.1 == j) = _
      rw [show updateFirstListing ((j, d) :: qs) j =
            (j, { d with status := some "sold" }) :: qs by simp [updateFirstListing]]
      rw [List.find?_cons_of_pos _ (by simp)]
    · rw [List.find?_cons_of_neg _ (by simp [hj])] at h
      rw [show updateFirstListing ((j, d) :: qs) i = (j, d) :: updateFirstListing qs i by
            simp [updateFirstListing, hj]]
      rw [List.find?_cons_of_neg _ (by simp [hj])]
      exact ih h

/-! ### C1 — checkout on an active (or status-less) listing -/

/-- C1: for a checkout request resolving to a listing whose status is "active"
or absent, and whose data passes the `Order` model's validation (nonnegative
price, 3-letter currency when present, a shipping_option from the enum — see
the counterexample `checkout_order_validation_cex` for why these conditions are
needed), checkout persists exactly one new order snapshotting the listing's
price and its currency (defaulting to "USD"), with status "created" and
escrow_status "held", and sets the listing's status to "sold". -/
theorem checkout_active_creates_order (st : MPState) (p : CheckoutRequest)
    (i : Nat) (l : ListingDoc)
    (hv : oidIsValid p.listing_id = true)
    (hf : findListing st (parseOid p.listing_id) = some (i, l))
    (hs : l.status = none ∨ l.status = some "active")
    (hp : 0 ≤ l.price)
    (hc : currencyOk (l.currency.getD "USD") = true)
    (hship : shippingOk p.shipping_option = true) :
    ∃ ord : OrderDoc,
      (checkout st p).2 = .ok { status := "order_confirmation",
                                order_id := natToHex24 st.nextId } ∧
      (checkout st p).1.orders = st.orders ++ [(st.nextId, ord)] ∧
      (checkout st p).1.products = st.products ∧
      (checkout st p).1.offers = st.offers ∧
      ord.amount = l.price ∧
      ord.currency = l.currency.getD "USD" ∧
      ord.status = "created" ∧
      ord.escrow_status = "held" ∧
      findListing (checkout st p).1 (parseOid p.listing_id) =
        some (i, { l with status := some "sold" }) := by
  have hp' : ratGe0 l.price = true := (ratGe0_iff l.price).mpr hp
  have hsu : listingUnavailable l.status = false := by
    rcases hs with h | h <;> simp [listingUnavailable, h]
  have heq : checkout st p =
      ({ st with
          orders := st.orders ++ [(st.nextId,
            { buyer_id := p.buyer_id, listing_id := natToHex24 i, amount := l.price,
              currency := l.currency.getD "USD",
              payment_method := p.payment_method.map (fun kv => (kv.1, kv.2.toStr)),
              shipping_option := p.shipping_option, status := "created",
              escrow_status := "held" })],
          nextId := st.nextId + 1,
          listings := updateFirstListing st.listings i },
        .ok { status := "order_confirmation", order_id := natToHex24 st.nextId }) := by
    simp only [checkout, hv, if_true, hf, hsu, Bool.false_eq_true, if_false,
      mkOrder, hp', hc, hship, Bool.and_self, insertOrder]
  refine ⟨_, by rw [heq], by rw [heq], by rw [heq], by rw [heq], rfl, rfl, rfl, rfl, ?_⟩
  rw [heq]
  exact find_updateFirst hf

/-- C1 witness: a concrete active listing and a well-formed checkout request,
with every hypothesis discharged by evaluation. -/
theorem checkout_active_creates_order_witness :
    (oidIsValid checkoutReq1.listing_id = true ∧
     findListing oneListingState (parseOid checkoutReq1.listing_id) = some (1, sampleListing) ∧
     (0 : Rat) ≤ sampleListing.price ∧
     currencyOk (sampleListing.currency.getD "USD") = true ∧
     shippingOk checkoutReq1.shipping_option = true) ∧
    (∃ ord : OrderDoc,
      (checkout oneListingState checkoutReq1).2 = .ok { status := "order_confirmation",
                                                        order_id := natToHex24 oneListingState.nextId } ∧
      (checkout oneListingState checkoutReq1).1.orders =
        oneListingState.orders ++ [(oneListingState.nextId, ord)] ∧
      (checkout oneListingState checkoutReq1).1.products = oneListingState.products ∧
      (checkout oneListingState checkoutReq1).1.offers = oneListingState.offers ∧
      ord.amount = sampleListing.price ∧
      ord.currency = sampleListing.currency.getD "USD" ∧
      ord.status = "created" ∧
      ord.escrow_status = "held" ∧
      findListing (checkout oneListingState checkoutReq1).1 (parseOid checkoutReq1.listing_id) =
        some (1, { sampleListing with status := some "sold" })) :=
  ⟨⟨by decide, rfl, (ratGe0_iff _).mp (by decide), rfl, by decide⟩,
   checkout_active_creates_order oneListingState checkoutReq1 1 sampleListing (by decide) rfl
     (Or.inr rfl) ((ratGe0_iff _).mp (by decide)) rfl (by decide)⟩

/-- A checkout request whose shipping_option is outside the `Order` enum; the
request model does not constrain it, so the handler body runs. -/
def badShipReq : CheckoutRequest :=
  { listing_id := lid1, buyer_id := "b1", payment_method := [], shipping_option := "overnight" }

/-- C1 counterexample: the listing is "active" and resolvable, yet checkout
creates no order and does not mark the listing sold — the `Order` pydantic
construction rejects the unconstrained shipping_option "overnight" and the
ValidationError escapes (an HTTP 500), so the claim as stated fails. -/
theorem checkout_order_validation_cex :
    sampleListing.status = some "active" ∧
    oidIsValid badShipReq.listing_id = true ∧
    findListing oneListingState (parseOid badShipReq.listing_id) = some (1, sampleListing) ∧
    checkout oneListingState badShipReq = (oneListingState, .error .validation) :=
  ⟨rfl, by decide, rfl, rfl⟩

/-! ### C2 — checkout on a listing with a non-"active" status -/

/-- C2 (amended): a listing bearing an explicit, non-empty status different
from "active" makes checkout fail with HTTP 400 "Listing not available",
leaving the whole store — in particular the order collection and the listing
itself — untouched.  (The claim as stated, covering every explicit non-"active"
status, fails on the empty-string status: see `checkout_empty_status_cex`.) -/
theorem checkout_inactive_fails (st : MPState) (p : CheckoutRequest)
    (i : Nat) (l : ListingDoc) (s : String)
    (hv : oidIsValid p.listing_id = true)
    (hf : findListing st (parseOid p.listing_id) = some (i, l))
    (hst : l.status = some s) (h1 : s ≠ "") (h2 : s ≠ "active") :
    checkout st p = (st, .error (.http 400 "Listing not available")) := by
  have hsu : listingUnavailable l.status = true := by
    simp [listingUnavailable, hst, h1, h2]
  simp only [checkout, hv, if_true, hf, hsu]

/-- A stored listing whose status is the empty string (a perfectly possible
stored document; only falsy statuses escape the availability check). -/
def emptyStatusListing : ListingDoc := { sampleListing with status := some "" }

def emptyStatusState : MPState :=
  { products := [], listings := [(1, emptyStatusListing)], offers := [], orders := [], nextId := 2 }

/-- C2 counterexample: the listing carries the explicit status "" — which is
not "active" — yet checkout succeeds and creates an order, because the Python
truthiness test `listing.get("status") and ...` skips falsy statuses.  The
claim as stated (any explicit non-"active" status ⇒ InvalidState, no order)
is therefore false. -/
theorem checkout_empty_status_cex :
    emptyStatusListing.status = some "" ∧
    (some "" : Option String) ≠ some "active" ∧
    (checkout emptyStatusState checkoutReq1).2 =
      .ok { status := "order_confirmation", order_id := natToHex24 2 } ∧
    (checkout emptyStatusState checkoutReq1).1.orders.length = 1 :=
  ⟨rfl, by decide, rfl, rfl⟩

def soldListing : ListingDoc := { sampleListing with status := some "sold" }

def soldState : MPState :=
  { products := [], listings := [(1, soldListing)], offers := [], orders := [], nextId := 2 }

/-- C2 witness: a sold listing rejects checkout with 400 and the state is unchanged. -/
theorem checkout_inactive_fails_witness :
    soldListing.status = some "sold" ∧
    ("sold" : String) ≠ "" ∧ ("sold" : String) ≠ "active" ∧
    checkout soldState checkoutReq1 = (soldState, .error (.http 400 "Listing not available")) :=
  ⟨rfl, by decide, by decide,
   checkout_inactive_fails soldState checkoutReq1 1 soldListing "sold" (by decide) rfl rfl
     (by decide) (by decide)⟩

/-! ### C3 — a second checkout on a sold-out listing -/

/-- Inversion of a successful checkout: the listing id was well formed and
resolved, and the final state's listing collection is the original one with
the first matching listing set to "sold". -/
theorem checkout_ok_inv (st st' : MPState) (p : CheckoutRequest) (r : CheckoutResp)
    (h : checkout st p = (st', .ok r)) :
    oidIsValid p.listing_id = true ∧
    ∃ i l, findListing st (parseOid p.listing_id) = some (i, l) ∧
      st'.listings = updateFirstListing st.listings i := by
  by_cases hv : oidIsValid p.listing_id = true
  · simp only [checkout, hv, if_true] at h
    rcases hf : findListing st (parseOid p.listing_id) with _ | ⟨i, l⟩
    · rw [hf] at h
      simp at h
    · rw [hf] at h
      by_cases hsu : listingUnavailable l.status = true
      · simp only [hsu, if_true] at h
        simp at h
      · simp only [Bool.not_eq_true] at hsu
        simp only [hsu, Bool.false_eq_true, if_false] at h
        rcases hmk : mkOrder p.buyer_id (natToHex24 i) l.price (l.currency.getD "USD")
            (p.payment_method.map (fun kv => (kv.1, kv.2.toStr))) p.shipping_option
          with _ | ord
        · rw [hmk] at h
          simp at h
        · rw [hmk] at h
          refine ⟨hv, i, l, rfl, ?_⟩
          have hst : st' = { st with
              orders := st.orders ++ [(st.nextId, ord)], nextId := st.nextId + 1,
              listings := updateFirstListing st.listings i } := by
            have := congrArg Prod.fst h
            exact this.symm
          rw [hst]
  · have hv' : oidIsValid p.listing_id = false := by simpa using hv
    simp only [checkout, hv', Bool.false_eq_true, if_false] at h
    simp at h

/-- C3: once a checkout has succeeded, any later checkout naming the same
listing_id fails with HTTP 400 "Listing not available" and changes nothing —
in particular it creates no further order — because the first checkout left
the listing's status at "sold". -/
theorem checkout_after_sale_fails (st st' : MPState) (p p2 : CheckoutRequest) (r : CheckoutResp)
    (h : checkout st p = (st', .ok r)) (hid : p2.listing_id = p.listing_id) :
    checkout st' p2 = (st', .error (.http 400 "Listing not available")) := by
  obtain ⟨hv, i, l, hf, hl⟩ := checkout_ok_inv st st' p r h
  have hv2 : oidIsValid p2.listing_id = true := by rw [hid]; exact hv
  have hf2 : findListing st' (parseOid p2.listing_id) =
      some (i, { l with status := some "sold" }) := by
    show st'.listings.find? (fun q => q.1 == parseOid p2.listing_id) = _
    rw [hid, hl]
    exact find_updateFirst hf
  have hsu : listingUnavailable (some "sold" : Option String) = true := by decide
  simp only [checkout, hv2, if_true, hf2, hsu]

/-- C3 witness: after the concrete successful checkout of
`checkout_active_creates_order_witness`, re-running the same request fails
with 400 and leaves the state unchanged. -/
theorem checkout_after_sale_fails_witness :
    checkout (checkout oneListingState checkoutReq1).1 checkoutReq1 =
      ((checkout oneListingState checkoutReq1).1,
        .error (.http 400 "Listing not available")) :=
  checkout_after_sale_fails oneListingState (checkout oneListingState checkoutReq1).1
    checkoutReq1 checkoutReq1 { status := "order_confirmation", order_id := natToHex24 2 }
    rfl rfl

/-! ### C5 — offer creation against a missing or malformed listing id -/

/-- C5: when the listing id of an offer request is malformed (not a valid
ObjectId string) or resolves to no stored listing, create_offer fails with
HTTP 404 "Listing not found" and the state — in particular the offer
collection — is unchanged. -/
theorem create_offer_not_found (st : MPState) (p : OfferCreate)
    (h : oidIsValid p.listing_id = false ∨ findListing st (parseOid p.listing_id) = none) :
    create_offer st p = (st, .error (.http 404 "Listing not found")) := by
  rcases h with h | h
  · simp only [create_offer, h, Bool.false_eq_true, if_false]
  · by_cases hv : oidIsValid p.listing_id = true
    · simp only [create_offer, hv, if_true, h]
    · have hv' : oidIsValid p.listing_id = false := by simpa using hv
      simp only [create_offer, hv', Bool.false_eq_true, if_false]

/-- C5 witness: the malformed id "abc" is rejected with 404 on a store that
contains a listing, and nothing changes. -/
theorem create_offer_not_found_witness :
    oidIsValid "abc" = false ∧
    create_offer oneListingState { buyer_id := "b2", listing_id := "abc", offer_price := 100 } =
      (oneListingState, .error (.http 404 "Listing not found")) :=
  ⟨by decide,
   create_offer_not_found oneListingState
     { buyer_id := "b2", listing_id := "abc", offer_price := 100 } (Or.inl (by decide))⟩

/-! ### C9 — every created offer has currency "USD" and status "pending" -/

/-- C9: whenever create_offer succeeds it appends exactly one offer, carrying
the payload's buyer, listing id and price together with the schema defaults
currency "USD" and status "pending".  The statement quantifies over every
store state, hence over every currency the referenced listing may carry: the
listing's currency plays no role in the offer. -/
theorem create_offer_defaults (st st' : MPState) (p : OfferCreate) (r : OfferResp)
    (h : create_offer st p = (st', .ok r)) :
    st'.offers = st.offers ++ [(st.nextId,
      { buyer_id := p.buyer_id, listing_id := p.listing_id, offer_price := p.offer_price,
        currency := "USD", status := "pending" })] := by
  by_cases hv : oidIsValid p.listing_id = true
  · simp only [create_offer, hv, if_true] at h
    rcases hf : findListing st (parseOid p.listing_id) with _ | ql
    · rw [hf] at h
      simp at h
    · rw [hf] at h
      by_cases hr : ratGe0 p.offer_price = true
      · simp only [mkOffer, hr, if_true] at h
        have hst : st' = (insertOffer st
            { buyer_id := p.buyer_id, listing_id := p.listing_id,
              offer_price := p.offer_price, currency := "USD", status := "pending" }).1 := by
          have := congrArg Prod.fst h
          exact this.symm
        rw [hst]
        rfl
      · have hr' : ratGe0 p.offer_price = false := by simpa using hr
        simp only [mkOffer, hr', Bool.false_eq_true, if_false] at h
        simp at h
  · have hv' : oidIsValid p.listing_id = false := by simpa using hv
    simp only [create_offer, hv', Bool.false_eq_true, if_false] at h
    simp at h

def offerReq1 : OfferCreate := { buyer_id := "b2", listing_id := lid1, offer_price := 100 }

/-- C9 witness: a concrete successful offer on a listing whose stored currency
is "USD" — the created offer's fields are exactly the defaults. -/
theorem create_offer_defaults_witness :
    create_offer oneListingState offerReq1 =
      ((create_offer oneListingState offerReq1).1,
        .ok { status := "offer_created", offer_id := natToHex24 2 }) ∧
    (create_offer oneListingState offerReq1).1.offers =
      oneListingState.offers ++ [(oneListingState.nextId,
        { buyer_id := offerReq1.buyer_id, listing_id := offerReq1.listing_id,
          offer_price := offerReq1.offer_price, currency := "USD", status := "pending" })] :=
  ⟨rfl, create_offer_defaults oneListingState (create_offer oneListingState offerReq1).1
    offerReq1 { status := "offer_created", offer_id := natToHex24 2 } rfl⟩

/-! ### C4 — product upsert by slug in create_listing -/

/-- C4 (amended): for a valid payload with a non-empty product slug, when a
stored product already carries that slug no product is inserted and the new
listing references the existing product's id; when none does, the product is
inserted and the new listing references its fresh id.  (For the empty slug the
lookup is skipped and a duplicate is inserted even when an empty-slug product
exists: see `create_listing_empty_slug_cex` and C10.) -/
theorem create_listing_upsert (st : MPState) (p : ListingCreate)
    (hv : ListingCreateValid p = true) (hs : p.product.slug ≠ "") :
    (∀ i q, st.products.find? (fun x => x.2.slug == p.product.slug) = some (i, q) →
      (create_listing st p).1.products = st.products ∧
      (create_listing st p).1.listings = st.listings ++ [(st.nextId,
        { seller_id := p.seller_id, product_id := natToHex24 i, price := p.price,
          listing_type := p.listing_type, currency := some "USD", status := some "active" })] ∧
      (create_listing st p).2 = .ok { status := "listing_created",
                                      listing_id := natToHex24 st.nextId,
                                      product_id := natToHex24 i }) ∧
    (st.products.find? (fun x => x.2.slug == p.product.slug) = none →
      (create_listing st p).1.products = st.products ++ [(st.nextId, p.product)] ∧
      (create_listing st p).1.listings = st.listings ++ [(st.nextId + 1,
        { seller_id := p.seller_id, product_id := natToHex24 st.nextId, price := p.price,
          listing_type := p.listing_type, currency := some "USD", status := some "active" })] ∧
      (create_listing st p).2 = .ok { status := "listing_created",
                                      listing_id := natToHex24 (st.nextId + 1),
                                      product_id := natToHex24 st.nextId }) := by
  have hv' := hv
  simp only [ListingCreateValid, Bool.and_eq_true] at hv'
  obtain ⟨⟨hpv, hpr⟩, hty⟩ := hv'
  have hs' : (p.product.slug != "") = true := bne_iff_ne.mpr hs
  constructor
  · intro i q hfind
    have heq : create_listing st p =
        ({ st with
            listings := st.listings ++ [(st.nextId,
              { seller_id := p.seller_id, product_id := natToHex24 i, price := p.price,
                listing_type := p.listing_type, currency := some "USD",
                status := some "active" })],
            nextId := st.nextId + 1 },
          .ok { status := "listing_created", listing_id := natToHex24 st.nextId,
                product_id := natToHex24 i }) := by
      simp only [create_listing, hs', if_true, hfind, mkListing, hpr, hty, Bool.and_self,
        insertListing]
    exact ⟨by rw [heq], by rw [heq], by rw [heq]⟩
  · intro hfind
    have heq : create_listing st p =
        ({ st with
            products := st.products ++ [(st.nextId, p.product)],
            listings := st.listings ++ [(st.nextId + 1,
              { seller_id := p.seller_id, product_id := natToHex24 st.nextId, price := p.price,
                listing_type := p.listing_type, currency := some "USD",
                status := some "active" })],
            nextId := st.nextId + 2 },
          .ok { status := "listing_created", listing_id := natToHex24 (st.nextId + 1),
                product_id := natToHex24 st.nextId }) := by
      simp only [create_listing, hs', if_true, hfind, mkListing, hpr, hty, Bool.and_self,
        insertProduct, insertListing]
    exact ⟨by rw [heq], by rw [heq], by rw [heq]⟩

def prodState : MPState :=
  { products := [(0, sampleProduct)], listings := [], offers := [], orders := [], nextId := 1 }

def listingReq1 : ListingCreate :=
  { seller_id := "s2", product := sampleProduct, price := 150, listing_type := "fixed_price" }

/-- C4 witness: creating a listing for the already-stored slug "air-max-1"
inserts no product and references the stored product's id. -/
theorem create_listing_upsert_witness :
    (ListingCreateValid listingReq1 = true ∧ listingReq1.product.slug ≠ "" ∧
     prodState.products.find? (fun x => x.2.slug == listingReq1.product.slug) =
       some (0, sampleProduct)) ∧
    ((create_listing prodState listingReq1).1.products = prodState.products ∧
     (create_listing prodState listingReq1).1.listings = prodState.listings ++ [(prodState.nextId,
       { seller_id := listingReq1.seller_id, product_id := natToHex24 0,
         price := listingReq1.price, listing_type := listingReq1.listing_type,
         currency := some "USD", status := some "active" })] ∧
     (create_listing prodState listingReq1).2 = .ok { status := "listing_created",
                                                      listing_id := natToHex24 prodState.nextId,
                                                      product_id := natToHex24 0 }) :=
  ⟨⟨by decide, by decide, rfl⟩,
   (create_listing_upsert prodState listingReq1 (by decide) (by decide)).1 0 sampleProduct rfl⟩

def emptySlugProduct : ProductDoc := { sampleProduct with slug := "" }

def emptySlugReq : ListingCreate :=
  { seller_id := "s1", product := emptySlugProduct, price := 10, listing_type := "fixed_price" }

def stSlug1 : MPState := (create_listing emptyState emptySlugReq).1

/-- C4 counterexample: a valid payload whose product slug "" already names a
stored product (created by the identical preceding call), yet create_listing
inserts a second product with the same slug — the upsert is keyed on slug
truthiness, so the claim as stated fails for the empty slug. -/
theorem create_listing_empty_slug_cex :
    ListingCreateValid emptySlugReq = true ∧
    stSlug1.products.map (fun q => q.2.slug) = [""] ∧
    (create_listing stSlug1 emptySlugReq).1.products.length = 2 :=
  ⟨by decide, rfl, rfl⟩

/-! ### C10 — the empty slug always inserts a new product -/

/-- C10: when the payload's product slug is the empty string the slug lookup is
skipped (`if product_data.get("slug")` is falsy) and a fresh product document
is always inserted — over every store state, including any that already holds
a product with an empty slug. -/
theorem create_listing_empty_slug_inserts (st : MPState) (p : ListingCreate)
    (hs : p.product.slug = "") :
    (create_listing st p).1.products = st.products ++ [(st.nextId, p.product)] := by
  have hs' : (p.product.slug != "") = false := by
    rw [hs]
    rfl
  simp only [create_listing, hs', Bool.false_eq_true, if_false]
  rcases hm : mkListing p.seller_id (insertProduct st p.product).2 p.price p.listing_type
    with _ | ld <;> simp only [hm] <;> rfl

/-- C10 witness: the store `stSlug1` already holds a product with slug "", and
the same empty-slug payload still appends a fresh copy. -/
theorem create_listing_empty_slug_inserts_witness :
    emptySlugReq.product.slug = "" ∧
    (create_listing stSlug1 emptySlugReq).1.products =
      stSlug1.products ++ [(stSlug1.nextId, emptySlugReq.product)] :=
  ⟨rfl, create_listing_empty_slug_inserts stSlug1 emptySlugReq rfl⟩

/-! ### C6 — where schema validation errors surface -/

/-- C6 (amended): a payload whose listing_type is outside the `Listing` enum is
rejected only when the `Listing` model is constructed inside the handler — the
request model leaves listing_type unconstrained — so the error surfaces as an
escaping ValidationError (an HTTP 500 server error) after the product upsert:
no listing, offer or order is written, but the product collection either kept
its state (slug hit) or has already gained the new product document. -/
theorem create_listing_bad_type (st : MPState) (p : ListingCreate)
    (hty : listingTypeOk p.listing_type = false) :
    (create_listing st p).2 = .error .validation ∧
    (create_listing st p).1.listings = st.listings ∧
    (create_listing st p).1.offers = st.offers ∧
    (create_listing st p).1.orders = st.orders ∧
    ((create_listing st p).1.products = st.products ∨
     (create_listing st p).1.products = st.products ++ [(st.nextId, p.product)]) := by
  have hmk : ∀ s pr, mkListing s pr p.price p.listing_type = none := by
    intro s pr
    simp [mkListing, hty]
  by_cases hs : (p.product.slug != "") = true
  · rcases hfind : st.products.find? (fun x => x.2.slug == p.product.slug) with _ | ⟨i, q⟩
    · simp only [create_listing, hs, if_true, hfind, hmk]
      simp [insertProduct]
    · simp only [create_listing, hs, if_true, hfind, hmk]
      simp
  · have hs' : (p.product.slug != "") = false := by simpa using hs
    simp only [create_listing, hs', Bool.false_eq_true, if_false, hmk]
    simp [insertProduct]

def badTypeReq : ListingCreate :=
  { seller_id := "s1", product := sampleProduct, price := 10, listing_type := "bogus" }

/-- C6 counterexample: the payload fails the listing_type enum constraint, and
the request indeed errors — but only after the product upsert has persisted a
new product document, so "no record in any collection is created or modified"
is false; the error is moreover a server error (an escaping ValidationError),
not a client error. -/
theorem create_listing_bad_type_cex :
    listingTypeOk badTypeReq.listing_type = false ∧
    (create_listing emptyState badTypeReq).2 = .error .validation ∧
    (create_listing emptyState badTypeReq).1.products.length = 1 :=
  ⟨by decide, rfl, rfl⟩

/-- C6 witness: the same bad-listing_type payload, with the amended theorem's
conclusions evaluated at that input. -/
theorem create_listing_bad_type_witness :
    listingTypeOk badTypeReq.listing_type = false ∧
    ((create_listing emptyState badTypeReq).2 = .error .validation ∧
     (create_listing emptyState badTypeReq).1.listings = emptyState.listings ∧
     (create_listing emptyState badTypeReq).1.offers = emptyState.offers ∧
     (create_listing emptyState badTypeReq).1.orders = emptyState.orders ∧
     ((create_listing emptyState badTypeReq).1.products = emptyState.products ∨
      (create_listing emptyState badTypeReq).1.products =
        emptyState.products ++ [(emptyState.nextId, badTypeReq.product)])) :=
  ⟨by decide, create_listing_bad_type emptyState badTypeReq (by decide)⟩

/-! ### C7 — the brand filter -/

theorem patElems_all_lit (cs : List Char) (h : cs.all (fun c => !(regexSpecial c)) = true) :
    patElems cs = some (cs.map RElem.lit) := by
  induction cs with
  | nil => rfl
  | cons c cs ih =>
    simp only [List.all_cons, Bool.and_eq_true] at h
    obtain ⟨h1, h2⟩ := h
    have hsp : regexSpecial c = false := by simpa using h1
    have hdot : ¬(c = '.') := by
      intro hc
      rw [hc] at hsp
      simp [regexSpecial] at hsp
    simp [patElems, hdot, hsp, ih h2]

theorem anchoredMatch_lit (cs : List Char) : ∀ ds : List Char,
    anchoredMatch (cs.map RElem.lit) ds = (cs.map Char.toLower == ds.map Char.toLower) := by
  induction cs with
  | nil => intro ds; cases ds <;> rfl
  | cons c cs ih =>
    intro ds
    cases ds with
    | nil => rfl
    | cons d ds =>
      simp only [List.map_cons, anchoredMatch, elemMatch]
      rw [ih ds]
      rfl

/-- C7 (amended): for a non-empty brand parameter made only of ordinary
characters (no regex metacharacters), the brand filter selects exactly the
products whose brand equals the parameter case-insensitively, either exactly
or after dropping a single trailing newline from the stored brand (PCRE's `$`
also asserts before a newline that ends the subject).  The parameter is
spliced uninterpreted into the pattern `^...$`, so a parameter containing
metacharacters is matched as a regular expression instead — see
`brand_regex_injection_cex` — and an empty parameter disables the filter. -/
theorem listProductsByBrand_exact (st : MPState) (brand : String)
    (h0 : ¬(brand = "")) (h1 : brand.data.all (fun c => !(regexSpecial c)) = true) :
    listProductsByBrand st brand =
      some (st.products.filter (fun q => ciEqChomp brand q.2.brand)) := by
  rw [listProductsByBrand, if_neg h0, patElems_all_lit brand.data h1, Option.map_some']
  congr 1
  apply List.filter_congr
  intro q hq
  simp only [dollarAnchoredMatch, anchoredMatch_lit]
  rfl

def adidasProduct : ProductDoc := { sampleProduct with brand := "ADIDAS", slug := "ad-1" }

/-- A stored product whose unconstrained brand string ends in a newline. -/
def newlineProduct : ProductDoc := { sampleProduct with brand := "Nike\n", slug := "nl-1" }

def brandState : MPState :=
  { products := [(0, sampleProduct), (1, adidasProduct), (2, newlineProduct)], listings := [],
    offers := [], orders := [], nextId := 3 }

/-- C7 witness: the metacharacter-free brand "nike" selects exactly the stored
products whose brand is "Nike" or "Nike\n" (the dollar anchor also matches
before the trailing newline), and not "ADIDAS". -/
theorem listProductsByBrand_exact_witness :
    (¬(("nike" : String) = "") ∧
     ("nike" : String).data.all (fun c => !(regexSpecial c)) = true) ∧
    listProductsByBrand brandState "nike" =
      some (brandState.products.filter (fun q => ciEqChomp "nike" q.2.brand)) ∧
    brandState.products.filter (fun q => ciEqChomp "nike" q.2.brand) =
      [(0, sampleProduct), (2, newlineProduct)] ∧
    ciEq "nike" "Nike\n" = false :=
  ⟨⟨by decide, by decide⟩,
   listProductsByBrand_exact brandState "nike" (by decide) (by decide), rfl, rfl⟩

def xBrandProduct : ProductDoc := { sampleProduct with brand := "x", slug := "x-1" }

def xBrandState : MPState :=
  { products := [(7, xBrandProduct)], listings := [], offers := [], orders := [], nextId := 8 }

/-- C7 counterexample: the brand parameter "." is not equal (even
case-insensitively) to the stored brand "x", yet the product is returned — the
parameter is interpolated into the pattern `^.$`, where `.` matches any single
character.  The returned set is therefore not an exact case-insensitive brand
match for every possible brand string. -/
theorem brand_regex_injection_cex :
    listProductsByBrand xBrandState "." = some [(7, xBrandProduct)] ∧
    ciEq "." "x" = false :=
  ⟨rfl, rfl⟩

/-! ### C8 — identifier stringification in serialized documents -/

theorem stringifyElem_not_oid (v : BVal) : BVal.isOid (stringifyElem v) = false := by
  cases v <;> rfl

theorem serializeField_shallowOk (kv : String × BVal) :
    fieldShallowOk (serializeField kv) = true := by
  rcases kv with ⟨k, v⟩
  cases v with
  | str s => rfl
  | oid n => rfl
  | num q => rfl
  | bool b => rfl
  | null => rfl
  | arr xs =>
    simp only [serializeField, fieldShallowOk, List.all_map, Function.comp]
    apply List.all_eq_true.mpr
    intro x hx
    simp [stringifyElem_not_oid]
  | dict gs =>
    simp only [serializeField, fieldShallowOk, List.all_map, Function.comp]
    apply List.all_eq_true.mpr
    intro g hg
    simp [stringifyElem_not_oid]

theorem shallowClean_map (l : List (String × BVal)) :
    shallowClean (l.map serializeField) = true := by
  simp only [shallowClean, List.all_map, Function.comp]
  apply List.all_eq_true.mpr
  intro kv hkv
  exact serializeField_shallowOk kv

/-- C8 (amended): `serialize_doc` stringifies every raw ObjectId down to depth
one — the popped `_id` (re-emitted as the string field "id"), top-level field
values, elements of top-level arrays, and immediate field values of top-level
sub-documents — so the serialized document is ObjectId-free at those depths for
every input document.  ObjectIds nested deeper survive untouched: see
`serialize_doc_deep_oid_cex`. -/
theorem serialize_doc_shallow (fs : List (String × BVal)) :
    shallowClean (serialize_doc fs) = true := by
  cases fs with
  | nil => rfl
  | cons a l => exact shallowClean_map _

/-- A document whose sub-document holds a sub-document holding an ObjectId. -/
def deepOidDoc : List (String × BVal) :=
  [("_id", .oid 1), ("a", .dict [("b", .dict [("c", .oid 2)])])]

/-- C8 counterexample: after serialization the depth-two ObjectId is still a
raw ObjectId (`.oid 2` below), so "every identifier-typed field nested
anywhere inside the document is serialized as a plain text string" is false —
the conversion loop only reaches depth one. -/
theorem serialize_doc_deep_oid_cex :
    serialize_doc deepOidDoc =
      [("a", .dict [("b", .dict [("c", .oid 2)])]), ("id", .str (natToHex24 1))] ∧
    hasOidFields (serialize_doc deepOidDoc) = true :=
  ⟨rfl, by simp [serialize_doc, deepOidDoc, dictSet, hasOidFields, BVal.hasOid, hasOidList,
    serializeField, stringifyElem]⟩

end SneakSync
